import Mathlib

/-
Verification of the wsforge WebSocket framework core against its
natural-language specification.

The Rust sources are shallowly embedded: byte strings (`Vec<u8>`, and the
UTF-8 bytes backing `String`/`&str`) become `List Nat` with every element
intended below 256, fallible operations become `Option`/`Except`, and the
concurrent containers (`DashMap`) become association lists with unique keys
(insert-replace / remove-filter, which is `DashMap`'s extensional
behaviour).  Stateful code is modelled by explicit state passing.
-/

set_option autoImplicit false

namespace WsForge

/-- UTF-8 bytes of an ASCII string literal; used only to write concrete
byte-string constants readably.  For ASCII characters the UTF-8 encoding
is the code point itself. -/
def asciiBytes (s : String) : List Nat := s.data.map Char.toNat

namespace Utf8

/-- Continuation byte test: `0x80 ..= 0xBF`. -/
def isCont (b : Nat) : Bool := 0x80 ≤ b && b ≤ 0xBF

/-- Allowed range of the second byte of a three-byte sequence, which depends
on the leading byte (Rust's `str` validation tables: `E0 → A0..BF`,
`ED → 80..9F`, otherwise a plain continuation byte). -/
def cont3Ok (b0 b1 : Nat) : Bool :=
  if b0 = 0xE0 then 0xA0 ≤ b1 && b1 ≤ 0xBF
  else if b0 = 0xED then 0x80 ≤ b1 && b1 ≤ 0x9F
  else isCont b1

/-- Allowed range of the second byte of a four-byte sequence
(`F0 → 90..BF`, `F4 → 80..8F`, otherwise a plain continuation byte). -/
def cont4Ok (b0 b1 : Nat) : Bool :=
  if b0 = 0xF0 then 0x90 ≤ b1 && b1 ≤ 0xBF
  else if b0 = 0xF4 then 0x80 ≤ b1 && b1 ≤ 0x8F
  else isCont b1

/-- Length (1..4) of the well-formed UTF-8 scalar encoding at the head of
the byte list, or `none` if the head does not start a well-formed
sequence (including a truncated sequence at the end). -/
def seqLen : List Nat → Option Nat
  | [] => none
  | b0 :: rest =>
    if b0 ≤ 0x7F then some 1
    else if 0xC2 ≤ b0 && b0 ≤ 0xDF then
      match rest with
      | b1 :: _ => if isCont b1 then some 2 else none
      | [] => none
    else if 0xE0 ≤ b0 && b0 ≤ 0xEF then
      match rest with
      | b1 :: b2 :: _ => if cont3Ok b0 b1 && isCont b2 then some 3 else none
      | _ => none
    else if 0xF0 ≤ b0 && b0 ≤ 0xF4 then
      match rest with
      | b1 :: b2 :: b3 :: _ =>
        if cont4Ok b0 b1 && isCont b2 && isCont b3 then some 4 else none
      | _ => none
    else none

/-- How many bytes an ill-formed sequence at the head consumes before a
single U+FFFD is substituted — the "maximal valid subpart" policy of
Rust's `String::from_utf8_lossy` (`Utf8Error::error_len`, with a truncated
sequence at the end of the input consuming its available prefix). -/
def errSkip : List Nat → Nat
  | [] => 1
  | b0 :: rest =>
    if 0xE0 ≤ b0 && b0 ≤ 0xEF then
      match rest with
      | b1 :: _ => if cont3Ok b0 b1 then 2 else 1
      | [] => 1
    else if 0xF0 ≤ b0 && b0 ≤ 0xF4 then
      match rest with
      | b1 :: b2 :: _ => if cont4Ok b0 b1 then (if isCont b2 then 3 else 2) else 1
      | [b1] => if cont4Ok b0 b1 then 2 else 1
      | [] => 1
    else 1

/-- Fuel-bounded worker for the lossy conversion.  The fuel only bounds the
number of decoded scalars (each step consumes at least one byte), so
`fuel = l.length` always suffices; it makes the recursion structural. -/
def lossyGo : Nat → List Nat → List Nat
  | _, [] => []
  | 0, _ :: _ => []
  | fuel + 1, b0 :: rest =>
    match seqLen (b0 :: rest) with
    | some n => (b0 :: rest).take n ++ lossyGo fuel ((b0 :: rest).drop n)
    | none =>
      0xEF :: 0xBF :: 0xBD :: lossyGo fuel ((b0 :: rest).drop (errSkip (b0 :: rest)))

/-- Bytes of `String::from_utf8_lossy(&l).to_string()`: well-formed scalar
encodings are copied unchanged, each ill-formed sequence is replaced by
the three UTF-8 bytes `EF BF BD` of U+FFFD. -/
def lossy (l : List Nat) : List Nat := lossyGo l.length l

/-- Fuel-bounded worker for strict validation. -/
def validGo : Nat → List Nat → Bool
  | _, [] => true
  | 0, _ :: _ => false
  | fuel + 1, b0 :: rest =>
    match seqLen (b0 :: rest) with
    | some n => validGo fuel ((b0 :: rest).drop n)
    | none => false

/-- Strict UTF-8 validity, as used by `std::str::from_utf8(..).ok()`. -/
def valid (l : List Nat) : Bool := validGo l.length l

end Utf8

/-! ## Message (src/wsforge-core/src/message.rs) -/

/-- `MessageType`: the tag of a WebSocket message. -/
inductive MessageType where
  | text
  | binary
  | ping
  | pong
  | close
deriving DecidableEq, Repr

/-- `Message { data: Vec<u8>, msg_type: MessageType }`. -/
structure Message where
  data : List Nat
  msg_type : MessageType
deriving DecidableEq, Repr

namespace Message

/-- `Message::text` (the argument is the UTF-8 byte content of the Rust
`String`; `String::into_bytes` is the identity on those bytes). -/
def text (s : List Nat) : Message := ⟨s, .text⟩

/-- `Message::binary`. -/
def binary (d : List Nat) : Message := ⟨d, .binary⟩

/-- `Message::ping`. -/
def ping (d : List Nat) : Message := ⟨d, .ping⟩

/-- `Message::pong`. -/
def pong (d : List Nat) : Message := ⟨d, .pong⟩

/-- `Message::close` (carries no payload). -/
def close : Message := ⟨[], .close⟩

/-- `Message::is_text`. -/
def is_text (m : Message) : Bool := m.msg_type = .text

/-- `Message::as_text`: `Some` of the text bytes exactly when the message is
Text and its payload is strictly valid UTF-8 (`std::str::from_utf8(..).ok()`). -/
def as_text (m : Message) : Option (List Nat) :=
  if m.msg_type = .text ∧ Utf8.valid m.data = true then some m.data else none

end Message

/-- `tokio_tungstenite::tungstenite::Message` (the framing library's message
type); the `Text` payload is the byte content of the Rust `String` it holds. -/
inductive TMessage where
  | text (s : List Nat)
  | binary (d : List Nat)
  | ping (d : List Nat)
  | pong (d : List Nat)
  | close (frame : Option (List Nat))
  | frame
deriving DecidableEq, Repr

/-- `Message::into_tungstenite`: Text goes through
`String::from_utf8_lossy(&self.data).to_string()`; Close always becomes
`Close(None)`. -/
def Message.into_tungstenite (m : Message) : TMessage :=
  match m.msg_type with
  | .text => .text (Utf8.lossy m.data)
  | .binary => .binary m.data
  | .ping => .ping m.data
  | .pong => .pong m.data
  | .close => .close none

/-- `Message::from_tungstenite`. -/
def Message.from_tungstenite : TMessage → Message
  | .text s => Message.text s
  | .binary d => Message.binary d
  | .ping d => Message.ping d
  | .pong d => Message.pong d
  | .close _ => Message.close
  | .frame => Message.binary []

/-- `tungstenite::Message::is_close`. -/
def TMessage.is_close : TMessage → Bool
  | .close _ => true
  | _ => false

/-! ## Errors (src/wsforge-core/src/error.rs) -/

/-- `Error`: the crate-wide error enum.  The wrapped lower-level library
errors (`tungstenite`, `io`, `serde_json`) are carried as their display
strings, which is all the crate ever uses of them. -/
inductive Err where
  | webSocket (msg : List Nat)
  | io (msg : List Nat)
  | json (msg : List Nat)
  | connectionNotFound (id : List Nat)
  | routeNotFound (route : List Nat)
  | invalidMessage
  | handler (msg : List Nat)
  | extractor (msg : List Nat)
  | custom (msg : List Nat)
deriving DecidableEq, Repr

/-- `Display for Error`, from the `#[error(..)]` attributes. -/
def Err.display : Err → List Nat
  | .webSocket m => asciiBytes "WebSocket error: " ++ m
  | .io m => asciiBytes "IO error: " ++ m
  | .json m => asciiBytes "JSON error: " ++ m
  | .connectionNotFound i => asciiBytes "Connection not found: " ++ i
  | .routeNotFound r => asciiBytes "Route not found: " ++ r
  | .invalidMessage => asciiBytes "Invalid message format"
  | .handler m => asciiBytes "Handler error: " ++ m
  | .extractor m => asciiBytes "Extractor error: " ++ m
  | .custom m => asciiBytes "Custom error: " ++ m

/-! ## Association lists

`DashMap` keyed containers are modelled as association lists whose keys are
kept unique by construction (insert replaces, remove filters), which is the
extensional behaviour of the map. -/

def lookupBy {α β : Type} [DecidableEq α] : List (α × β) → α → Option β
  | [], _ => none
  | (k, v) :: rest, a => if k = a then some v else lookupBy rest a

/-! ## Handler and response model (src/wsforge-core/src/handler.rs)

The `impl_handler!` macro enumerates 0..8 extractor parameters; following
the spec's porting note (§9, "Variadic handler arities"), a handler is
modelled as a declared list of extractors plus a body taking the extracted
values by position.  Extracted values are carried in one opaque currency
(byte strings). -/

/-- The connection id, as the bytes of the Rust `String`. -/
abbrev ConnectionId := List Nat

/-- The per-dispatch context an extractor sees.  (The `AppState` and the
fresh `Extensions` also passed by the dispatcher are modelled separately —
see `ExtStore` — and are not inspected by any claim; an extractor here is
an arbitrary function of the message and connection.) -/
structure Ctx where
  message : Message
  connId : ConnectionId

/-- Currency for extracted argument values. -/
abbrev ExVal := List Nat

/-- Handler return values: the `IntoResponse` implementors
(`()`, `String`/`&str`, `Message`, `Vec<u8>`, `JsonResponse<T>` with its
`serde_json::to_string` outcome). -/
inductive RespVal where
  | unit
  | str (s : List Nat)
  | message (m : Message)
  | bytes (b : List Nat)
  | jsonResponse (ser : Except (List Nat) (List Nat))

/-- `IntoResponse::into_response` for the plain (non-`Result`) implementors. -/
def RespVal.intoResponse : RespVal → Except Err (Option Message)
  | .unit => .ok none
  | .str s => .ok (some (Message.text s))
  | .message m => .ok (some m)
  | .bytes b => .ok (some (Message.binary b))
  | .jsonResponse (.ok s) => .ok (some (Message.text s))
  | .jsonResponse (.error e) => .error (.json e)

/-- What a handler body returns: either a bare `IntoResponse` value or a
`Result<T>`. -/
inductive HandlerOut where
  | plain (v : RespVal)
  | result (r : Except Err RespVal)

/-- `IntoResponse::into_response`, including the `Result<T>` instance:
`Ok(resp)` delegates, `Err(e)` becomes
`Ok(Some(Message::text(format!("Error: {}", e))))`. -/
def HandlerOut.intoResponse : HandlerOut → Except Err (Option Message)
  | .plain v => v.intoResponse
  | .result (.ok v) => v.intoResponse
  | .result (.error e) => .ok (some (Message.text (asciiBytes "Error: " ++ e.display)))

/-- A route handler: its extractor list and its body. -/
structure HandlerModel where
  extractors : List (Ctx → Except Err ExVal)
  body : List ExVal → HandlerOut

/-- The extractor prelude of `HandlerService::call`: each
`$ty::from_message(..).await?` in order, the first failure propagating. -/
def runExtractors : List (Ctx → Except Err ExVal) → Ctx → Except Err (List ExVal)
  | [], _ => .ok []
  | e :: rest, ctx =>
    match e ctx with
    | .error err => .error err
    | .ok v =>
      match runExtractors rest ctx with
      | .error err => .error err
      | .ok vs => .ok (v :: vs)

/-- `HandlerService::call` (from `impl_handler!`): run the extractors, then
the body, then `IntoResponse`. -/
def HandlerModel.call (h : HandlerModel) (ctx : Ctx) : Except Err (Option Message) :=
  match runExtractors h.extractors ctx with
  | .error e => .error e
  | .ok vals => (h.body vals).intoResponse

/-! ## Middleware chain (src/wsforge-core/src/middleware/mod.rs) -/

/-- A middleware: `handle(message, conn, state, ext, next)`, with `next` as
an explicit continuation. -/
abbrev MiddlewareModel := Ctx → (Ctx → Except Err (Option Message)) → Except Err (Option Message)

/-- `MiddlewareChain { middlewares, handler }`. -/
structure MiddlewareChain where
  middlewares : List MiddlewareModel
  handler : Option HandlerModel

/-- `Next::run`: step through the remaining middleware, then call the
terminal handler, or return `Ok(None)` when there is none. -/
def nextRun : List MiddlewareModel → Option HandlerModel → Ctx → Except Err (Option Message)
  | [], some h, ctx => h.call ctx
  | [], none, _ => .ok none
  | mw :: rest, h, ctx => mw ctx (nextRun rest h)

/-- `MiddlewareChain::execute`. -/
def MiddlewareChain.execute (c : MiddlewareChain) (ctx : Ctx) : Except Err (Option Message) :=
  nextRun c.middlewares c.handler ctx

/-! ## Connection manager (src/wsforge-core/src/connection.rs) -/

/-- `ConnectionManager`: each live connection with its outbound queue, the
list of messages enqueued on its unbounded channel.  The write-loop
consumer is alive for registered connections, so `Connection::send`
(`UnboundedSender::send`) succeeds and appends. -/
structure ManagerModel where
  conns : List (ConnectionId × List Message)
deriving DecidableEq, Repr

namespace ManagerModel

/-- `ConnectionManager::get` (the queue handle stands in for the
`Connection` clone). -/
def get (mgr : ManagerModel) (id : ConnectionId) : Option (List Message) :=
  lookupBy mgr.conns id

/-- `ConnectionManager::count` (`DashMap::len`). -/
def count (mgr : ManagerModel) : Nat := mgr.conns.length

/-- `Connection::send` on the connection `id`: enqueue onto its outbound
queue. -/
def send (mgr : ManagerModel) (id : ConnectionId) (m : Message) : ManagerModel :=
  ⟨mgr.conns.map fun c => if c.1 = id then (c.1, c.2 ++ [m]) else c⟩

/-- `ConnectionManager::add`: `DashMap::insert` (replacing any entry with
the same key), a fresh connection starting with an empty queue. -/
def add (mgr : ManagerModel) (id : ConnectionId) : ManagerModel :=
  ⟨(id, []) :: mgr.conns.filter fun c => !(c.1 = id : Bool)⟩

/-- `ConnectionManager::remove`: `DashMap::remove`. -/
def remove (mgr : ManagerModel) (id : ConnectionId) : ManagerModel :=
  ⟨mgr.conns.filter fun c => !(c.1 = id : Bool)⟩

/-- Checked `usize` subtraction: `none` models the arithmetic-overflow
panic of debug builds (release builds wrap around). -/
def usizeSub (a b : Nat) : Option Nat := if b ≤ a then some (a - b) else none

/-- `ConnectionManager::broadcast_except`: the `debug!` call first computes
`self.connections.len() - 1`; then the message is cloned onto the queue of
every entry whose key differs from `except_id`.  The result is `none` when
the length arithmetic underflows. -/
def broadcast_except (mgr : ManagerModel) (exceptId : ConnectionId) (m : Message) :
    Option ManagerModel :=
  match usizeSub mgr.count 1 with
  | none => none
  | some _ =>
    some ⟨mgr.conns.map fun c => if !(c.1 = exceptId : Bool) then (c.1, c.2 ++ [m]) else c⟩

end ManagerModel

/-! ## Router dispatch (src/wsforge-core/src/router.rs) -/

/-- The routing-relevant fields of `Router` (`routes: DashMap<String, Arc<dyn
Handler>>` and `default_handler`); the `connection_manager` is passed to
`handle_message` explicitly as state, and the remaining fields (app state,
hooks, static handler) play no part in message dispatch. -/
structure RouterModel where
  routes : List (List Nat × HandlerModel)
  defaultHandler : Option HandlerModel

/-- `str::split_once(' ')` on UTF-8 text bytes: the byte `0x20` occurs in
valid UTF-8 exactly at the occurrences of the char `' '`. -/
def splitOnceSpace (l : List Nat) : Option (List Nat × List Nat) :=
  if 32 ∈ l then some (l.takeWhile (fun b => !(b = 32 : Bool)),
                       ((l.dropWhile (fun b => !(b = 32 : Bool))).tail))
  else none

/-- The handler-selection part of `Router::handle_message`: Text beginning
with `/` looks up the token before the first space — or the whole text when
it has no space — in the route table; everything else is no route match;
a miss falls back to the default handler (`or_else`). -/
def RouterModel.selectedHandler (r : RouterModel) (m : Message) : Option HandlerModel :=
  let viaRoute :=
    match m.as_text with
    | some text =>
      if text.head? = some 47 then
        match splitOnceSpace text with
        | some (route, _) => lookupBy r.routes route
        | none => lookupBy r.routes text
      else none
    | none => none
  viaRoute.orElse fun _ => r.defaultHandler

/-- What a dispatch leaves behind: the manager (registry and queues) and
which of the two log statements fired. -/
structure DispatchOut where
  mgr : ManagerModel
  warnedNoHandler : Bool
  loggedHandlerError : Bool
deriving DecidableEq, Repr

/-- `Router::handle_message`: look the connection up (failing with
`ConnectionNotFound` when absent), create a fresh `Extensions`, select a
handler, call it, and enqueue a returned message on the originating
connection's queue; `Ok(None)` enqueues nothing; a handler/extractor error
is only logged with `error!`; with no handler at all a warning is logged. -/
def RouterModel.handle_message (r : RouterModel) (mgr : ManagerModel)
    (connId : ConnectionId) (m : Message) : Except Err DispatchOut :=
  match mgr.get connId with
  | none => .error (.connectionNotFound connId)
  | some _ =>
    match r.selectedHandler m with
    | some h =>
      match h.call ⟨m, connId⟩ with
      | .ok (some resp) => .ok ⟨mgr.send connId resp, false, false⟩
      | .ok none => .ok ⟨mgr, false, false⟩
      | .error _ => .ok ⟨mgr, false, true⟩
    | none => .ok ⟨mgr, true, false⟩

/-- ASCII whitespace test (the whitespace relevant to the HTTP request line
and to the spec-side reading of the route rule; the route counterexample
uses a tab). -/
def isWsByte (b : Nat) : Bool :=
  b = 9 || b = 10 || b = 11 || b = 12 || b = 13 || b = 32

/-- Modelled from the spec (claim C4 wording): route selection whose key is
the substring of the payload up to the first whitespace character, or the
whole payload when there is none.  Written only to compare the spec's words
against `RouterModel.selectedHandler`. -/
def specSelectedHandlerWs (r : RouterModel) (m : Message) : Option HandlerModel :=
  let viaRoute :=
    match m.as_text with
    | some text =>
      if text.head? = some 47 then
        lookupBy r.routes (text.takeWhile (fun b => !isWsByte b))
      else none
    | none => none
  viaRoute.orElse fun _ => r.defaultHandler

/-- The amended spec-side selection rule (claim C4 corrected): the key is
the substring of the payload up to the first space character `' '`. -/
def specSelectedHandlerSpace (r : RouterModel) (m : Message) : Option HandlerModel :=
  let viaRoute :=
    match m.as_text with
    | some text =>
      if text.head? = some 47 then
        lookupBy r.routes (text.takeWhile (fun b => !(b = 32 : Bool)))
      else none
    | none => none
  viaRoute.orElse fun _ => r.defaultHandler

/-! ## Session runtime (handle_websocket, src/wsforge-core/src/connection.rs) -/

/-- Registry-relevant events of one session, in program order.  The hook
events record whether `manager.get(&conn_id)` succeeds at the instant the
hook runs — what a hook that looks up its own connection observes. -/
inductive LifeEvent where
  | added (count : Nat)
  | connectHook (lookupOk : Bool)
  | dispatched (m : Message)
  | removed
  | disconnectHook (lookupOk : Bool)
deriving DecidableEq, Repr

/-- `handle_websocket`, as its registry-relevant schedule: create and `add`
the connection, verify the count, invoke `on_connect`, run the read loop —
which hands every frame before the first Close frame to the spawned
per-message dispatch (`on_message`) and never touches the registry — and
once the loops finish, `remove` the connection and invoke `on_disconnect`.
`inbound` is the list of frames the read half yields before it ends. -/
def handle_websocket (mgr : ManagerModel) (connId : ConnectionId)
    (inbound : List TMessage) : ManagerModel × List LifeEvent :=
  let mgr1 := mgr.add connId
  let delivered := inbound.takeWhile fun t => !t.is_close
  let mgr2 := mgr1.remove connId
  (mgr2,
    [LifeEvent.added mgr1.count, LifeEvent.connectHook (mgr1.get connId).isSome]
      ++ delivered.map (fun t => LifeEvent.dispatched (Message.from_tungstenite t))
      ++ [LifeEvent.removed, LifeEvent.disconnectHook (mgr2.get connId).isSome])

/-! ## Type-erased stores (src/wsforge-core/src/extractor.rs `Extensions`)

`Arc<dyn Any + Send + Sync>` becomes a dependent pair of a runtime type
identifier and a value of the type family at that identifier;
`downcast::<T>` compares identifiers and casts on success. -/

/-- A type-erased value over the type family `Val`. -/
structure AnyVal (Val : Nat → Type) where
  tid : Nat
  val : Val tid

/-- `Extensions`: string-keyed type-erased store (`DashMap<String, Arc<dyn
Any + Send + Sync>>`). -/
def ExtStore (Val : Nat → Type) := List (String × AnyVal Val)

/-- `Extensions::insert`: `DashMap::insert`, replacing any entry under the
same key. -/
def ExtStore.insert {Val : Nat → Type} (ext : ExtStore Val) (key : String)
    (tid : Nat) (v : Val tid) : ExtStore Val :=
  (key, ⟨tid, v⟩) :: ext.filter fun c => !(c.1 = key : Bool)

/-- `Extensions::get::<T>`: look the key up, then `downcast::<T>` — succeed
exactly when the stored type identifier matches. -/
def ExtStore.get {Val : Nat → Type} (ext : ExtStore Val) (tid : Nat) (key : String) :
    Option (Val tid) :=
  match lookupBy ext key with
  | none => none
  | some a => if h : a.tid = tid then some (h ▸ a.val) else none

/-! ## Static files and HTTP (src/wsforge-core/src/static_files.rs and
Router::handle_http_request) -/

/-- A file-system node. -/
inductive FsEntry where
  | file (content : List Nat)
  | dir
deriving DecidableEq, Repr

/-- A symlink-free snapshot of the file system: the existing nodes keyed by
canonical absolute path (a list of components, each a byte string), plus
the working directory against which relative paths resolve.  On such a file
system `canonicalize` is an existence check plus lexical resolution of
empty/`.`/`..` components. -/
structure ModelFs where
  cwd : List (List Nat)
  entries : List (List (List Nat) × FsEntry)

/-- Lexical resolution of path components against a base: empty and `.`
components vanish, `..` pops (a no-op at the root, as for `/..`). -/
def resolveComponents (base : List (List Nat)) : List (List Nat) → List (List Nat)
  | [] => base
  | c :: rest =>
    if c = [] ∨ c = asciiBytes "." then resolveComponents base rest
    else if c = asciiBytes ".." then resolveComponents base.dropLast rest
    else resolveComponents (base ++ [c]) rest

/-- Existence lookup by canonical path. -/
def ModelFs.lookupEntry (fs : ModelFs) (p : List (List Nat)) : Option FsEntry :=
  lookupBy fs.entries p

/-- `tokio::fs::canonicalize`: the canonical absolute form of the path,
failing when the target does not exist. -/
def ModelFs.canonicalize (fs : ModelFs) (path : List Nat) :
    Option (List (List Nat)) :=
  let base := if path.head? = some 47 then [] else fs.cwd
  let resolved := resolveComponents base (List.splitOn 47 path)
  match fs.lookupEntry resolved with
  | some _ => some resolved
  | none => none

/-- Value of an ASCII hex digit. -/
def hexVal (b : Nat) : Option Nat :=
  if 48 ≤ b ∧ b ≤ 57 then some (b - 48)
  else if 65 ≤ b ∧ b ≤ 70 then some (b - 55)
  else if 97 ≤ b ∧ b ≤ 102 then some (b - 87)
  else none

/-- `percent_encoding::percent_decode_str`: `%` followed by two hex digits
decodes to that byte; any other `%` passes through unchanged. -/
def percentDecode : List Nat → List Nat
  | [] => []
  | 37 :: a :: b :: rest =>
    match hexVal a, hexVal b with
    | some ha, some hb => (16 * ha + hb) :: percentDecode rest
    | _, _ => 37 :: percentDecode (a :: b :: rest)
  | b :: rest => b :: percentDecode rest

/-- `PathBuf::push`: pushing an absolute path replaces the whole path,
otherwise it appends after a separator. -/
def pathPush (base p : List Nat) : List Nat :=
  if p.head? = some 47 then p else base ++ 47 :: p

/-- `mime_guess::from_path(..).first_or_octet_stream()`, restricted to the
extension table the spec lists (external collaborator). -/
def mimeFromPath (p : List Nat) : List Nat :=
  let lastComp := (List.splitOn 47 p).getLastD []
  let dotParts := List.splitOn 46 lastComp
  if dotParts.length ≤ 1 then asciiBytes "application/octet-stream"
  else
    let ext := dotParts.getLastD []
    if ext = asciiBytes "html" then asciiBytes "text/html"
    else if ext = asciiBytes "css" then asciiBytes "text/css"
    else if ext = asciiBytes "js" then asciiBytes "application/javascript"
    else if ext = asciiBytes "json" then asciiBytes "application/json"
    else if ext = asciiBytes "png" then asciiBytes "image/png"
    else if ext = asciiBytes "jpg" ∨ ext = asciiBytes "jpeg" then asciiBytes "image/jpeg"
    else if ext = asciiBytes "svg" then asciiBytes "image/svg+xml"
    else if ext = asciiBytes "wasm" then asciiBytes "application/wasm"
    else asciiBytes "application/octet-stream"

/-- The failure cases of `StaticFileHandler::serve` (each a
`Error::custom(..)` in the source; the tag records which one). -/
inductive ServeErr where
  | invalidEncoding
  | fileNotFound
  | invalidRoot
  | accessDenied
deriving DecidableEq, Repr

/-- `StaticFileHandler { root, index_file }`. -/
structure StaticFileHandler where
  root : List Nat
  index_file : List Nat
deriving DecidableEq, Repr

/-- The final file target opened by `serve`: when the canonical target is a
directory, the index file is appended to the (non-canonical) `file_path`
before opening. -/
def StaticFileHandler.openTarget (h : StaticFileHandler) (fs : ModelFs)
    (file_path : List Nat) (canonical : List (List Nat)) : List Nat :=
  if fs.lookupEntry canonical = some .dir then pathPush file_path h.index_file
  else file_path

/-- The body of `StaticFileHandler::serve` after percent-decoding, with
`file_path = root.push(decoded)`: canonicalize the target (failure is
"File not found"), canonicalize the root, reject a canonical target that
does not start with the canonical root ("Access denied", logging a
traversal warning), append the index file when the target is a directory,
and open and read the file. -/
def StaticFileHandler.servePath (h : StaticFileHandler) (fs : ModelFs)
    (file_path : List Nat) : Except ServeErr (List Nat × List Nat) :=
  match fs.canonicalize file_path with
  | none => .error .fileNotFound
  | some canonical =>
    match fs.canonicalize h.root with
    | none => .error .invalidRoot
    | some root_canonical =>
      if root_canonical.isPrefixOf canonical = false then .error .accessDenied
      else
        match fs.canonicalize (h.openTarget fs file_path canonical) with
        | none => .error .fileNotFound
        | some target =>
          match fs.lookupEntry target with
          | some (.file content) => .ok (content, mimeFromPath (h.openTarget fs file_path canonical))
          | _ => .error .fileNotFound

/-- `StaticFileHandler::serve`: strip leading slashes, percent-decode (the
decoded bytes must be valid UTF-8, else "Invalid path encoding"), push the
decoded path onto the root, and continue with `servePath`. -/
def StaticFileHandler.serve (h : StaticFileHandler) (fs : ModelFs) (path : List Nat) :
    Except ServeErr (List Nat × List Nat) :=
  if Utf8.valid (percentDecode (path.dropWhile fun b => (b = 47 : Bool))) = false then
    .error .invalidEncoding
  else
    h.servePath fs (pathPush h.root (percentDecode (path.dropWhile fun b => (b = 47 : Bool))))

/-- Decimal rendering of a `Nat` (`format!("{}")`). -/
def natDecimal (n : Nat) : List Nat := asciiBytes (Nat.repr n)

/-- `static_files::http_response`: the byte rendering
`HTTP/1.1 <status> <reason>\r\nContent-Type: ..\r\nContent-Length:
..\r\nConnection: close\r\n\r\n<body>`. -/
def http_response (status : Nat) (content_type : List Nat) (body : List Nat) : List Nat :=
  let status_text :=
    if status = 200 then asciiBytes "OK"
    else if status = 404 then asciiBytes "Not Found"
    else if status = 500 then asciiBytes "Internal Server Error"
    else asciiBytes "Unknown"
  asciiBytes "HTTP/1.1 " ++ natDecimal status ++ [32] ++ status_text
    ++ asciiBytes "\r\nContent-Type: " ++ content_type
    ++ asciiBytes "\r\nContent-Length: " ++ natDecimal body.length
    ++ asciiBytes "\r\nConnection: close\r\n\r\n" ++ body

/-- Worker for `split_whitespace` (ASCII whitespace; the words of the
request line). -/
def splitWsGo : List Nat → List Nat → List (List Nat)
  | acc, [] => if acc = [] then [] else [acc.reverse]
  | acc, b :: rest =>
    if isWsByte b then
      if acc = [] then splitWsGo [] rest else acc.reverse :: splitWsGo [] rest
    else splitWsGo (b :: acc) rest

/-- `str::split_whitespace(..).collect()`. -/
def splitWhitespace (l : List Nat) : List (List Nat) := splitWsGo [] l

/-- `str::lines(..).next()`: the bytes before the first `\n`, with one
trailing `\r` stripped (an empty header yields the empty line, on which the
request-line parse fails just as `None` does). -/
def firstLine (header : List Nat) : List Nat :=
  let line := header.takeWhile fun b => !(b = 10 : Bool)
  if line.getLast? = some 13 then line.dropLast else line

/-- The `lines().next().and_then(..)` computation of
`Router::handle_http_request`: `Some(parts[1])` exactly when the request
line splits into at least two whitespace-separated parts and the first is
`GET` or `HEAD`. -/
def requestTarget (header : List Nat) : Option (List Nat) :=
  match splitWhitespace (firstLine header) with
  | m :: target :: _ =>
    if m = asciiBytes "GET" ∨ m = asciiBytes "HEAD" then some target else none
  | _ => none

/-- The served path: `requestTarget(..).unwrap_or("/")`. -/
def parsedPath (header : List Nat) : List Nat :=
  (requestTarget header).getD (asciiBytes "/")

/-- Outcome of the HTTP path: the status the match arm chose, the response
bytes written to the socket, and whether the `warn!` in the 404 arm fired. -/
structure HttpOut where
  status : Nat
  response : List Nat
  warned : Bool
deriving DecidableEq, Repr

/-- `Router::handle_http_request`: parse the request path (defaulting to
`/`), serve it, and answer 200 with the file contents and inferred MIME
type, or — for any serve failure — 404 with the minimal HTML body and a
logged warning. -/
def handle_http_request (h : StaticFileHandler) (fs : ModelFs) (header : List Nat) :
    HttpOut :=
  match h.serve fs (parsedPath header) with
  | .ok (content, mime) => ⟨200, http_response 200 mime content, false⟩
  | .error _ =>
    ⟨404,
     http_response 404 (asciiBytes "text/html")
       (asciiBytes "<html><body><h1>404 Not Found</h1></body></html>"),
     true⟩

/-- The method token of the request line (a spec-side observation used to
quantify over non-GET/HEAD requests). -/
def methodOf (header : List Nat) : Option (List Nat) :=
  (splitWhitespace (firstLine header)).head?

/-! ### Concrete instances used by counterexamples, evaluations and witnesses -/

def connZero : ConnectionId := asciiBytes "conn_0"

/-- A one-connection manager whose connection has an empty outbound queue. -/
def mgrOne : ManagerModel := ⟨[(connZero, [])]⟩

/-- A handler whose single extractor always fails (as `State<T>` does when
`T` is absent from the state). -/
def failingExtractorHandler : HandlerModel :=
  ⟨[fun _ => .error (.extractor (asciiBytes "State not found"))], fun _ => .plain .unit⟩

def routerFailingDefault : RouterModel := ⟨[], some failingExtractorHandler⟩

/-- The echo handler: one extractor projecting the payload bytes, the body
returning them as a Text reply. -/
def echoHandler : HandlerModel :=
  ⟨[fun ctx => .ok ctx.message.data], fun vals => .plain (.str (vals.headD []))⟩

def routerEchoDefault : RouterModel := ⟨[], some echoHandler⟩

/-- A middleware that tags the Text response produced by the rest of the
chain, making an invocation of the chain observable. -/
def tagMiddleware : MiddlewareModel := fun ctx next =>
  match next ctx with
  | .ok (some (Message.mk d .text)) => .ok (some (Message.text (asciiBytes "tagged:" ++ d)))
  | other => other

/-- Handlers distinguishable by their replies, and a router with the route
`/chat` plus a default, for the route-selection counterexample. -/
def handlerA : HandlerModel := ⟨[], fun _ => .plain (.str (asciiBytes "A"))⟩

def handlerB : HandlerModel := ⟨[], fun _ => .plain (.str (asciiBytes "B"))⟩

def routerChat : RouterModel := ⟨[(asciiBytes "/chat", handlerA)], some handlerB⟩

/-- A handler whose body fails with a custom error. -/
def failingBodyHandler : HandlerModel :=
  ⟨[], fun _ => .result (.error (.custom (asciiBytes "boom")))⟩

def routerFailingBody : RouterModel := ⟨[], some failingBodyHandler⟩

/-- A file system with `/public/index.html` under the root directory
`public` and a file `/etc/passwd` outside it; the working directory is the
file-system root. -/
def fsPub : ModelFs :=
  ⟨[],
   [([asciiBytes "public"], .dir),
    ([asciiBytes "public", asciiBytes "index.html"], .file (asciiBytes "<h1>ok</h1>")),
    ([asciiBytes "etc"], .dir),
    ([asciiBytes "etc", asciiBytes "passwd"], .file (asciiBytes "root:x"))]⟩

def shPub : StaticFileHandler := ⟨asciiBytes "public", asciiBytes "index.html"⟩

/-- A router with no routes and no default handler. -/
def routerEmpty : RouterModel := ⟨[], none⟩

/-! ## Theorems -/

namespace Utf8

theorem seqLen_pos {l : List Nat} {n : Nat} (h : seqLen l = some n) : 1 ≤ n := by
  unfold seqLen at h
  repeat' split at h
  all_goals simp at h
  all_goals omega

theorem lossyGo_of_validGo :
    ∀ (fuel : Nat) (l : List Nat), l.length ≤ fuel → validGo fuel l = true →
      lossyGo fuel l = l := by
  intro fuel
  induction fuel with
  | zero =>
    intro l hlen _
    cases l with
    | nil => rfl
    | cons b0 rest => simp at hlen
  | succ fuel ih =>
    intro l hlen hvalid
    cases l with
    | nil => rfl
    | cons b0 rest =>
      unfold validGo at hvalid
      unfold lossyGo
      cases hseq : seqLen (b0 :: rest) with
      | none => simp [hseq] at hvalid
      | some n =>
        simp only [hseq] at hvalid ⊢
        have hn : 1 ≤ n := seqLen_pos hseq
        have hdrop : ((b0 :: rest).drop n).length ≤ fuel := by
          simp only [List.length_drop, List.length_cons]
          simp only [List.length_cons] at hlen
          omega
        rw [ih _ hdrop hvalid]
        exact List.take_append_drop n (b0 :: rest)

/-- On strictly valid input the lossy conversion is the identity. -/
theorem lossy_of_valid {l : List Nat} (h : valid l = true) : lossy l = l :=
  lossyGo_of_validGo l.length l (Nat.le_refl _) h

end Utf8

theorem lookupBy_cons_self {α β : Type} [DecidableEq α] (k : α) (v : β) (l : List (α × β)) :
    lookupBy ((k, v) :: l) k = some v := by
  simp [lookupBy]

theorem lookupBy_filter_ne {α β : Type} [DecidableEq α] (l : List (α × β)) (k : α) :
    lookupBy (l.filter fun c => !(c.1 = k : Bool)) k = none := by
  induction l with
  | nil => rfl
  | cons c rest ih =>
    simp only [List.filter_cons]
    by_cases h : c.1 = k
    · simp [h, ih]
    · simp [h, lookupBy, ih]

theorem ManagerModel.get_add_self (mgr : ManagerModel) (id : ConnectionId) :
    (mgr.add id).get id = some [] :=
  lookupBy_cons_self id [] _

theorem ManagerModel.get_remove_self (mgr : ManagerModel) (id : ConnectionId) :
    (mgr.remove id).get id = none :=
  lookupBy_filter_ne mgr.conns id

/-- Claim C8: in every execution of the per-connection session runtime the
connection is inserted into the registry before `on_connect` runs and
removed before `on_disconnect` runs, so a lookup of the connection id from
within `on_connect` succeeds and from within `on_disconnect` fails: the
event trace opens with the insertion followed by `connectHook` observing a
successful lookup, and closes with the removal followed by
`disconnectHook` observing a failed lookup. -/
theorem hook_registry_ordering (mgr : ManagerModel) (cid : ConnectionId)
    (inbound : List TMessage) :
    (handle_websocket mgr cid inbound).2 =
      [.added (mgr.add cid).count, .connectHook true]
        ++ (inbound.takeWhile fun t => !t.is_close).map
            (fun t => .dispatched (Message.from_tungstenite t))
        ++ [.removed, .disconnectHook false] := by
  unfold handle_websocket
  simp [ManagerModel.get_add_self, ManagerModel.get_remove_self]

/-- Claim C9 (code bug, evaluated at the failing input): on the empty
registry `broadcast_except` computes `connections.len() - 1 = 0 - 1`,
which underflows `usize` — the checked-subtraction model returns `none`
(the arithmetic-overflow panic of debug builds). -/
theorem broadcast_except_empty_underflow :
    ManagerModel.broadcast_except ⟨[]⟩ connZero (Message.text (asciiBytes "hi")) = none := by
  rfl

/-- Claim C10: `Extensions::get::<T>(k)` returns `Some v` exactly when the
entry stored under `k` carries the type identifier of `T` with value `v`
(so a mismatched stored type `U ≠ T`, or an absent key, yields `None`),
and after `insert(k, v : U)` a `get` under `k` succeeds exactly for the
stored type `U`. -/
theorem extensions_get_type_identity {Val : Nat → Type} (ext : ExtStore Val) (tid : Nat)
    (key : String) :
    (∀ v : Val tid, ExtStore.get ext tid key = some v ↔ lookupBy ext key = some ⟨tid, v⟩)
    ∧ (∀ (u : Nat) (w : Val u), ExtStore.get (ExtStore.insert ext key u w) tid key =
        if h : u = tid then some (h ▸ w) else none) := by
  have hget : ∀ (l : ExtStore Val) (v : Val tid),
      ExtStore.get l tid key = some v ↔ lookupBy l key = some ⟨tid, v⟩ := by
    intro l v
    unfold ExtStore.get
    cases hl : lookupBy l key with
    | none => simp
    | some a =>
      cases a with
      | mk t val =>
        by_cases h : t = tid
        · subst h
          simp
        · simp [h]
  refine ⟨fun v => hget ext v, fun u w => ?_⟩
  unfold ExtStore.get ExtStore.insert
  rw [lookupBy_cons_self]

/-- Claim C6 (counterexample): a Text `Message` whose payload `[0xFF]` is
not valid UTF-8 does not survive the wire round trip — the lossy `String`
conversion in `into_tungstenite` replaces the byte with U+FFFD. -/
theorem message_wire_round_trip_cex :
    Message.from_tungstenite (Message.mk [0xFF] .text).into_tungstenite
      ≠ Message.mk [0xFF] .text := by
  decide

/-- Claim C6 (amended): converting a `Message` to the framing library's
type and back is the identity for Binary, Ping and Pong with any payload,
for Text whose payload is valid UTF-8, and for Close with empty payload. -/
theorem message_wire_round_trip (m : Message)
    (htext : m.msg_type = .text → Utf8.valid m.data = true)
    (hclose : m.msg_type = .close → m.data = []) :
    Message.from_tungstenite m.into_tungstenite = m := by
  cases m with
  | mk d ty =>
    cases ty with
    | text =>
      simp only [Message.into_tungstenite, Message.from_tungstenite, Message.text]
      exact congrArg (fun x => Message.mk x .text) (Utf8.lossy_of_valid (htext rfl))
    | binary => rfl
    | ping => rfl
    | pong => rfl
    | close =>
      simp only [Message.into_tungstenite, Message.from_tungstenite, Message.close]
      exact congrArg (fun x => Message.mk x .close) (hclose rfl).symm

theorem message_wire_round_trip_witness :
    Message.from_tungstenite (Message.mk (asciiBytes "hello") .text).into_tungstenite
      = Message.mk (asciiBytes "hello") .text :=
  message_wire_round_trip (Message.mk (asciiBytes "hello") .text)
    (fun _ => by decide) (fun h => absurd h (by decide))

/-- Claim C5: when the selected handler's extractors succeed and its body
returns `Err(e)`, the dispatch enqueues on the originating connection
exactly one Text message whose payload is `"Error: "` followed by the
display form of `e`, and reports no dispatch-level error. -/
theorem handler_error_reply (r : RouterModel) (mgr : ManagerModel) (cid : ConnectionId)
    (m : Message) (h : HandlerModel) (vals : List ExVal) (e : Err) (q : List Message)
    (hq : mgr.get cid = some q) (hsel : r.selectedHandler m = some h)
    (hex : runExtractors h.extractors ⟨m, cid⟩ = .ok vals)
    (hbody : h.body vals = .result (.error e)) :
    r.handle_message mgr cid m =
      .ok ⟨mgr.send cid (Message.text (asciiBytes "Error: " ++ e.display)), false, false⟩ := by
  unfold RouterModel.handle_message HandlerModel.call
  simp only [hq, hsel, hex, hbody, HandlerOut.intoResponse]

theorem handler_error_reply_witness :
    RouterModel.handle_message routerFailingBody mgrOne connZero (Message.text (asciiBytes "hi"))
      = .ok ⟨ManagerModel.send mgrOne connZero
              (Message.text (asciiBytes "Error: " ++ Err.display (.custom (asciiBytes "boom")))),
             false, false⟩ :=
  handler_error_reply routerFailingBody mgrOne connZero (Message.text (asciiBytes "hi"))
    failingBodyHandler [] (.custom (asciiBytes "boom")) [] rfl rfl rfl rfl

/-- Claim C2 (counterexample): with a default handler whose extractor
fails, the dispatch completes with the manager unchanged — the originating
connection's queue stays empty, so no `"Error: ..."` reply is enqueued
(the claim demands exactly one); the connection does remain registered. -/
theorem extractor_failure_reply_cex :
    RouterModel.handle_message routerFailingDefault mgrOne connZero
        (Message.text (asciiBytes "hi"))
      = .ok ⟨mgrOne, false, true⟩
    ∧ ManagerModel.get mgrOne connZero = some [] :=
  ⟨rfl, rfl⟩

/-- Claim C2 (amended): when an extractor of the selected handler fails,
the dispatch only logs the error (`error!`): nothing is enqueued on any
queue and the registry is untouched — in particular the originating
connection is not removed. -/
theorem extractor_failure_logged_only (r : RouterModel) (mgr : ManagerModel)
    (cid : ConnectionId) (m : Message) (h : HandlerModel) (e : Err) (q : List Message)
    (hq : mgr.get cid = some q) (hsel : r.selectedHandler m = some h)
    (hex : runExtractors h.extractors ⟨m, cid⟩ = .error e) :
    r.handle_message mgr cid m = .ok ⟨mgr, false, true⟩ := by
  unfold RouterModel.handle_message HandlerModel.call
  simp only [hq, hsel, hex]

theorem extractor_failure_logged_only_witness :
    RouterModel.handle_message routerFailingDefault mgrOne connZero
        (Message.text (asciiBytes "ping"))
      = .ok ⟨mgrOne, false, true⟩ :=
  extractor_failure_logged_only routerFailingDefault mgrOne connZero
    (Message.text (asciiBytes "ping")) failingExtractorHandler
    (.extractor (asciiBytes "State not found")) [] rfl rfl rfl

/-- Claim C4 (counterexample): on the Text payload `"/chat\tx"` — whose
first whitespace character is a tab — the spec's whitespace rule selects
the `/chat` route handler (replying `"A"`), but the code's
`split_once(' ')` finds no space, uses the whole payload as the key,
misses, and falls back to the default handler (replying `"B"`). -/
theorem route_selection_whitespace_cex :
    (RouterModel.selectedHandler routerChat (Message.text (asciiBytes "/chat\tx"))).map
        (fun h => h.call ⟨Message.text (asciiBytes "/chat\tx"), connZero⟩)
      = some (.ok (some (Message.text (asciiBytes "B"))))
    ∧ (specSelectedHandlerWs routerChat (Message.text (asciiBytes "/chat\tx"))).map
        (fun h => h.call ⟨Message.text (asciiBytes "/chat\tx"), connZero⟩)
      = some (.ok (some (Message.text (asciiBytes "A")))) :=
  ⟨rfl, rfl⟩

theorem takeWhile_ne32_of_not_mem (l : List Nat) (h : 32 ∉ l) :
    l.takeWhile (fun b => !(b = 32 : Bool)) = l := by
  induction l with
  | nil => rfl
  | cons b rest ih =>
    simp only [List.mem_cons, not_or] at h
    simp only [List.takeWhile_cons]
    rw [if_pos (by simpa using Ne.symm h.1)]
    rw [ih h.2]

/-- Claim C4 (amended): route selection matches the spec rule with "first
whitespace character" read as "first space character": Text beginning with
`/` selects the route keyed by the substring up to the first space (or the
whole payload when it has none), otherwise — or on a miss, or for Binary
or non-UTF-8 Text — the default handler; and when no handler results the
dispatch only logs a warning and enqueues nothing. -/
theorem route_selection_rule (r : RouterModel) (mgr : ManagerModel) (cid : ConnectionId)
    (m : Message) (q : List Message) (hq : mgr.get cid = some q) :
    r.selectedHandler m = specSelectedHandlerSpace r m
    ∧ (r.selectedHandler m = none →
        r.handle_message mgr cid m = .ok ⟨mgr, true, false⟩) := by
  constructor
  · unfold RouterModel.selectedHandler specSelectedHandlerSpace
    cases ht : m.as_text with
    | none => rfl
    | some text =>
      simp only
      by_cases hh : text.head? = some 47
      · simp only [hh, if_pos]
        cases hsp : splitOnceSpace text with
        | some p =>
          unfold splitOnceSpace at hsp
          split at hsp
          · cases hsp
            rfl
          · cases hsp
        | none =>
          unfold splitOnceSpace at hsp
          split at hsp
          · cases hsp
          · next hmem =>
            rw [takeWhile_ne32_of_not_mem text hmem]
      · simp [hh]
  · intro hnone
    unfold RouterModel.handle_message
    simp only [hq, hnone]

theorem route_selection_rule_witness :
    RouterModel.handle_message routerEmpty mgrOne connZero (Message.binary [1])
      = .ok ⟨mgrOne, true, false⟩ :=
  (route_selection_rule routerEmpty mgrOne connZero (Message.binary [1]) [] rfl).2 rfl

/-- Claim C3 (code-bug evaluation): `Router::handle_message` calls the
selected handler directly — the dispatch of a Text `"hi"` through a router
whose default is the echo handler enqueues the untouched echo `"hi"` —
while `MiddlewareChain::execute`, had the router invoked it with a
registered tagging middleware and the same terminal handler, would produce
the tagged reply.  The `Router` has no middleware field or `layer` method,
so no dispatch ever reaches the chain. -/
theorem dispatch_bypasses_middleware :
    RouterModel.handle_message routerEchoDefault mgrOne connZero
        (Message.text (asciiBytes "hi"))
      = .ok ⟨ManagerModel.send mgrOne connZero (Message.text (asciiBytes "hi")), false, false⟩
    ∧ MiddlewareChain.execute ⟨[tagMiddleware], some echoHandler⟩
        ⟨Message.text (asciiBytes "hi"), connZero⟩
      = .ok (some (Message.text (asciiBytes "tagged:hi"))) :=
  ⟨rfl, rfl⟩

theorem serve_ok_prefix (h : StaticFileHandler) (fs : ModelFs) (path : List Nat)
    (content mime : List Nat) (hs : h.serve fs path = .ok (content, mime)) :
    ∃ c rc,
      fs.canonicalize (pathPush h.root (percentDecode (path.dropWhile fun b => (b = 47 : Bool))))
          = some c
      ∧ fs.canonicalize h.root = some rc ∧ rc.isPrefixOf c = true := by
  unfold StaticFileHandler.serve at hs
  split at hs
  · cases hs
  · unfold StaticFileHandler.servePath at hs
    split at hs
    · cases hs
    · next canonical hc =>
      split at hs
      · cases hs
      · next rc hrc =>
        split at hs
        · cases hs
        · next hpre =>
          refine ⟨canonical, rc, hc, hrc, ?_⟩
          simpa using hpre

/-- Claim C7: a 200 response occurs only when the canonical form of the
resolved target (`root` + decoded request path) exists and starts with the
canonical form of the root; and whenever the canonical target exists but
does not lie under the canonical root, the response is a 404 with a logged
warning. -/
theorem static_path_traversal_guard (h : StaticFileHandler) (fs : ModelFs)
    (header : List Nat) :
    ((handle_http_request h fs header).status = 200 →
      ∃ c rc,
        fs.canonicalize
            (pathPush h.root
              (percentDecode ((parsedPath header).dropWhile fun b => (b = 47 : Bool))))
          = some c
        ∧ fs.canonicalize h.root = some rc ∧ rc.isPrefixOf c = true)
    ∧ (∀ c rc,
        fs.canonicalize
            (pathPush h.root
              (percentDecode ((parsedPath header).dropWhile fun b => (b = 47 : Bool))))
          = some c →
        fs.canonicalize h.root = some rc → rc.isPrefixOf c = false →
        (handle_http_request h fs header).status = 404
          ∧ (handle_http_request h fs header).warned = true) := by
  constructor
  · intro h200
    unfold handle_http_request at h200
    cases hs : h.serve fs (parsedPath header) with
    | error e =>
      rw [hs] at h200
      simp at h200
    | ok pr =>
      obtain ⟨content, mime⟩ := pr
      exact serve_ok_prefix h fs (parsedPath header) content mime hs
  · intro c rc h1 h2 h3
    cases hs : h.serve fs (parsedPath header) with
    | ok pr =>
      obtain ⟨content, mime⟩ := pr
      obtain ⟨c', rc', hc', hrc', hp'⟩ := serve_ok_prefix h fs _ content mime hs
      rw [h1] at hc'
      rw [h2] at hrc'
      cases hc'
      cases hrc'
      rw [h3] at hp'
      cases hp'
    | error e =>
      unfold handle_http_request
      rw [hs]
      exact ⟨rfl, rfl⟩

theorem static_path_traversal_guard_witness :
    (∃ c rc,
      fsPub.canonicalize
          (pathPush shPub.root
            (percentDecode
              ((parsedPath (asciiBytes "GET /index.html HTTP/1.1")).dropWhile
                fun b => (b = 47 : Bool))))
        = some c
      ∧ fsPub.canonicalize shPub.root = some rc ∧ rc.isPrefixOf c = true)
    ∧ ((handle_http_request shPub fsPub (asciiBytes "GET /../etc/passwd HTTP/1.1")).status = 404
        ∧ (handle_http_request shPub fsPub (asciiBytes "GET /../etc/passwd HTTP/1.1")).warned
            = true) :=
  ⟨(static_path_traversal_guard shPub fsPub (asciiBytes "GET /index.html HTTP/1.1")).1
      (by decide),
   (static_path_traversal_guard shPub fsPub (asciiBytes "GET /../etc/passwd HTTP/1.1")).2
      [asciiBytes "etc", asciiBytes "passwd"] [asciiBytes "public"]
      (by decide) (by decide) (by decide)⟩

/-- Claim C1 (counterexample): a request whose method is POST — neither GET
nor HEAD — receives a 200 file response (the index page), not the 404 the
claim asserts, because the request-line parse falls back to the path
`"/"`. -/
theorem http_method_404_cex :
    (handle_http_request shPub fsPub
        (asciiBytes "POST /secret HTTP/1.1\r\nHost: x\r\n\r\n")).status = 200 := by
  decide

/-- Claim C1 (amended): a request whose request-line method is neither
`GET` nor `HEAD` is answered exactly like `GET / HTTP/1.1` — the path
falls back to `"/"`, so the response is 200 with the index file when `/`
resolves under the root and 404 otherwise; a 200 file response is
therefore not exclusive to GET and HEAD. -/
theorem http_non_get_head (h : StaticFileHandler) (fs : ModelFs) (header : List Nat)
    (hGet : ¬ methodOf header = some (asciiBytes "GET"))
    (hHead : ¬ methodOf header = some (asciiBytes "HEAD")) :
    handle_http_request h fs header
      = handle_http_request h fs (asciiBytes "GET / HTTP/1.1") := by
  have htarget : requestTarget header = none := by
    unfold requestTarget
    unfold methodOf at hGet hHead
    cases hsw : splitWhitespace (firstLine header) with
    | nil => rfl
    | cons m rest =>
      cases rest with
      | nil => rfl
      | cons t rest2 =>
        rw [hsw] at hGet hHead
        simp only [List.head?_cons] at hGet hHead
        have hm1 : ¬ m = asciiBytes "GET" := fun hh => hGet (by rw [hh])
        have hm2 : ¬ m = asciiBytes "HEAD" := fun hh => hHead (by rw [hh])
        simp [hm1, hm2]
  have hp1 : parsedPath header = asciiBytes "/" := by
    unfold parsedPath
    rw [htarget]
    rfl
  have hp2 : parsedPath (asciiBytes "GET / HTTP/1.1") = asciiBytes "/" := by decide
  unfold handle_http_request
  rw [hp1, hp2]

theorem http_non_get_head_witness :
    handle_http_request shPub fsPub (asciiBytes "POST /secret HTTP/1.1\r\nHost: x\r\n\r\n")
      = handle_http_request shPub fsPub (asciiBytes "GET / HTTP/1.1") :=
  http_non_get_head shPub fsPub (asciiBytes "POST /secret HTTP/1.1\r\nHost: x\r\n\r\n")
    (by decide) (by decide)

end WsForge
